import Mathlib

/-!
# Verification of the GCS cost-optimizer recommendation engine

Shallow embedding of `src/gcs_cost_optimizer.py`.  Python floats are
modelled as exact rationals (`ℚ`); storage classes are strings, mirroring
the dictionary-keyed pricing table; timestamps are rationals measured in
days (only order and day offsets matter to the code).
-/

/-- `STORAGE_CLASS_PRICING`: per-GB monthly price table (lines 34-39). -/
def STORAGE_CLASS_PRICING : List (String × ℚ) :=
  [("STANDARD", 0.020), ("NEARLINE", 0.010), ("COLDLINE", 0.004), ("ARCHIVE", 0.0012)]

/-- Python `d.get(k, default)` on a string-keyed dict. -/
def dictGet (d : List (String × ℚ)) (k : String) (default : ℚ) : ℚ :=
  (d.lookup k).getD default

/-- Python `d[k]` on a string-keyed dict.  Every use site in the source
indexes a key present in the table, so the `none` case is unreachable
there and the default value is irrelevant. -/
def dictIndex (d : List (String × ℚ)) (k : String) : ℚ :=
  (d.lookup k).getD 0

/-- The rate used for a bucket's current cost (line 141):
`STORAGE_CLASS_PRICING.get(storage_class, STORAGE_CLASS_PRICING['STANDARD'])`. -/
def currentRate (cls : String) : ℚ :=
  dictGet STORAGE_CLASS_PRICING cls (dictIndex STORAGE_CLASS_PRICING "STANDARD")

/-- A stored object as the analyzer reads it: size plus an optional
creation timestamp (`hasattr(blob, 'time_created')`, lines 120-135). -/
structure Blob where
  size : ℚ
  time_created : Option ℚ
deriving DecidableEq, Repr

/-- The four age cohorts of the access-pattern scan (line 118). -/
inductive Cohort where
  | recent | medium | rare | cold
deriving DecidableEq, Repr

/-- The `access_counts` dict (line 118). -/
structure AccessCounts where
  recent : ℕ
  medium : ℕ
  rare : ℕ
  cold : ℕ
deriving DecidableEq, Repr

/-- The elif chain classifying one creation time (lines 128-135); the
thresholds `now - 30`, `now - 90`, `now - 365` are the timedeltas of
lines 114-116, with time measured in days. -/
def classifyAge (now created : ℚ) : Cohort :=
  if created > now - 30 then .recent
  else if created > now - 90 then .medium
  else if created > now - 365 then .rare
  else .cold

/-- Increment the cohort counter chosen by `classifyAge` (lines 128-135). -/
def bumpCohort (now : ℚ) (ac : AccessCounts) (created : ℚ) : AccessCounts :=
  match classifyAge now created with
  | .recent => { ac with recent := ac.recent + 1 }
  | .medium => { ac with medium := ac.medium + 1 }
  | .rare => { ac with rare := ac.rare + 1 }
  | .cold => { ac with cold := ac.cold + 1 }

/-- One iteration of the per-blob loop of `_analyze_bucket`
(lines 120-135): add the blob's size and, when the blob has a creation
timestamp, count its cohort. -/
def scanStep (now : ℚ) (acc : ℚ × AccessCounts) (b : Blob) : ℚ × AccessCounts :=
  let size := acc.1 + b.size
  match b.time_created with
  | some created => (size, bumpCohort now acc.2 created)
  | none => (size, acc.2)

/-- The per-blob loop of `_analyze_bucket` (lines 120-135): accumulates
total size and, for blobs that have a creation timestamp, cohort counts. -/
def scanBlobs (now : ℚ) (blobs : List Blob) : ℚ × AccessCounts :=
  blobs.foldl (scanStep now) (0, ⟨0, 0, 0, 0⟩)

/-- The `bucket_data` record as it stands when `_generate_recommendations`
is called (lines 94-143). -/
structure BucketData where
  name : String
  location : String
  storage_class : String
  size_bytes : ℚ
  object_count : ℕ
  access_frequency : AccessCounts
  current_cost : ℚ
deriving DecidableEq, Repr

/-- `_analyze_bucket` up to the call of `_generate_recommendations`
(lines 89-146): counts objects, scans sizes and cohorts, and prices the
bucket at its current storage class. -/
def analyze_bucket (now : ℚ) (name location storage_class : String)
    (blobs : List Blob) : BucketData :=
  let object_count := blobs.length
  let scanned := scanBlobs now blobs
  let size_bytes := scanned.1
  let size_gb := size_bytes / 1024 ^ 3
  { name := name
    location := location
    storage_class := storage_class
    size_bytes := size_bytes
    object_count := object_count
    access_frequency := scanned.2
    current_cost := size_gb * currentRate storage_class }

/-- One entry of `bucket_data['recommendations']` (lines 170-211);
the dict key `type` is rendered as `rtype`. -/
structure Recommendation where
  rtype : String
  action : String
  savings : ℚ
  details : String
deriving DecidableEq, Repr

/-- Display-only stand-in for Python's `f"{x:.2f}"`: the value in cents.
The binary rounding of float formatting is not modelled; no claim
concerns this text. -/
def fmt2 (q : ℚ) : String :=
  toString (round (q * 100) : ℤ)

/-- What `_generate_recommendations` writes back into `bucket_data`
(lines 213-214 plus the `optimized_cost` assignments). -/
structure GenResult where
  recommendations : List Recommendation
  optimized_cost : ℚ
  savings : ℚ
deriving DecidableEq, Repr

/-- `size_gb` as recomputed at line 152. -/
def sizeGB (bd : BucketData) : ℚ :=
  bd.size_bytes / 1024 ^ 3

/-- `cold_ratio` (line 160):
`(rare + cold) / max(object_count, 1)`. -/
def coldRatio (bd : BucketData) : ℚ :=
  ((bd.access_frequency.rare : ℚ) + (bd.access_frequency.cold : ℚ))
    / ((max bd.object_count 1 : ℕ) : ℚ)

/-- `_generate_recommendations` (lines 150-215), as a pure function from
the bucket record to the recommendation list, optimized cost and savings. -/
def generate_recommendations (bd : BucketData) : GenResult :=
  let size_gb := sizeGB bd
  let access_freq := bd.access_frequency
  let current_class := bd.storage_class
  let cold_ratio := coldRatio bd
  -- lines 165-187: storage class recommendations
  let step1 : List Recommendation × ℚ :=
    if current_class = "STANDARD" ∧ cold_ratio > 0.7 then
      if cold_ratio > 0.9 then
        let new_class := if access_freq.cold > access_freq.rare then "ARCHIVE" else "COLDLINE"
        let new_cost := size_gb * dictIndex STORAGE_CLASS_PRICING new_class
        let savings := bd.current_cost - new_cost
        ([{ rtype := "storage_class"
            action := "Change storage class from " ++ current_class ++ " to " ++ new_class
            savings := savings
            details := "Estimated monthly savings: $" ++ fmt2 savings }], new_cost)
      else
        let new_class := "NEARLINE"
        let new_cost := size_gb * dictIndex STORAGE_CLASS_PRICING new_class
        let savings := bd.current_cost - new_cost
        ([{ rtype := "storage_class"
            action := "Change storage class from " ++ current_class ++ " to " ++ new_class
            savings := savings
            details := "Estimated monthly savings: $" ++ fmt2 savings }], new_cost)
    else ([], bd.current_cost)
  -- lines 189-202: lifecycle policy recommendations (`if not recommendations`)
  let step2 : List Recommendation × ℚ :=
    if step1.1 = [] then
      if cold_ratio > 0.3 then
        let savings := bd.current_cost * 0.3
        ([{ rtype := "lifecycle"
            action := "Implement lifecycle policy to transition older objects to cheaper storage classes"
            savings := savings
            details := "Suggested policy: Move objects older than 30 days to NEARLINE, 90 days to COLDLINE, and 365 days to ARCHIVE" }],
         bd.current_cost - savings)
      else step1
    else step1
  -- lines 204-211: object versioning check
  let recs :=
    if bd.object_count > 1000 then
      step2.1 ++ [{ rtype := "versioning"
                    action := "Review object versioning settings"
                    savings := 0
                    details := "If enabled, consider adding lifecycle rules to delete old versions" }]
    else step2.1
  { recommendations := recs
    optimized_cost := step2.2
    savings := bd.current_cost - step2.2 }

/-- The target storage class picked by the tier-change branch
(lines 166-178), collapsed into one expression. -/
def targetClass (bd : BucketData) : String :=
  if coldRatio bd > 0.9 then
    if bd.access_frequency.cold > bd.access_frequency.rare then "ARCHIVE" else "COLDLINE"
  else "NEARLINE"

/-- The tier-change recommendation record for target class `c`. -/
def tierRec (bd : BucketData) (c : String) : Recommendation :=
  { rtype := "storage_class"
    action := "Change storage class from " ++ bd.storage_class ++ " to " ++ c
    savings := bd.current_cost - sizeGB bd * dictIndex STORAGE_CLASS_PRICING c
    details := "Estimated monthly savings: $"
      ++ fmt2 (bd.current_cost - sizeGB bd * dictIndex STORAGE_CLASS_PRICING c) }

/-- The lifecycle-policy recommendation record. -/
def lifecycleRec (bd : BucketData) : Recommendation :=
  { rtype := "lifecycle"
    action := "Implement lifecycle policy to transition older objects to cheaper storage classes"
    savings := bd.current_cost * 0.3
    details := "Suggested policy: Move objects older than 30 days to NEARLINE, 90 days to COLDLINE, and 365 days to ARCHIVE" }

/-- The versioning-review recommendation record. -/
def versioningRec : Recommendation :=
  { rtype := "versioning"
    action := "Review object versioning settings"
    savings := 0
    details := "If enabled, consider adding lifecycle rules to delete old versions" }

/-- The tier-change / lifecycle recommendations (only one branch can
fire), as a function of the bucket record. -/
def recsBranches (bd : BucketData) : List Recommendation :=
  if bd.storage_class = "STANDARD" ∧ coldRatio bd > 0.7 then
    [tierRec bd (targetClass bd)]
  else if coldRatio bd > 0.3 then [lifecycleRec bd]
  else []

/-- The optimized cost as set by the tier-change / lifecycle branches;
note it does not depend on the versioning branch. -/
def optBranches (bd : BucketData) : ℚ :=
  if bd.storage_class = "STANDARD" ∧ coldRatio bd > 0.7 then
    sizeGB bd * dictIndex STORAGE_CLASS_PRICING (targetClass bd)
  else if coldRatio bd > 0.3 then bd.current_cost - bd.current_cost * 0.3
  else bd.current_cost

/-- The versioning-review tail of the recommendation list. -/
def versioningPart (bd : BucketData) : List Recommendation :=
  if bd.object_count > 1000 then [versioningRec] else []

/-- Branch-by-branch description of `generate_recommendations`. -/
lemma generate_recommendations_eq (bd : BucketData) :
    generate_recommendations bd =
      { recommendations := recsBranches bd ++ versioningPart bd
        optimized_cost := optBranches bd
        savings := bd.current_cost - optBranches bd } := by
  simp only [generate_recommendations, targetClass, tierRec, lifecycleRec, versioningRec,
    recsBranches, optBranches, versioningPart]
  split_ifs with h1 h2 h3 h4 h5 h6 h7 <;> simp_all

/-- Sum of the four cohort counters. -/
def cohortSum (ac : AccessCounts) : ℕ :=
  ac.recent + ac.medium + ac.rare + ac.cold

/-- Per-bucket savings-percentage column of `display_results` (line 237):
`(savings / max(current_cost, 0.01)) * 100`. -/
def savingsPercent (savings current_cost : ℚ) : ℚ :=
  savings / max current_cost 0.01 * 100

/-- Run-level savings percentage (`display_results` lines 246-248 and
`export_report` lines 345-347). -/
def totalSavingsPercent (total_current total_optimized : ℚ) : ℚ :=
  (total_current - total_optimized) / max total_current 0.01 * 100

/-- Python's `s.split(' ')` on the underlying character list: split at
every single space, keeping empty fields. -/
def pySplitSpaceAux : List Char → List (List Char)
  | [] => [[]]
  | c :: cs =>
    if c = ' ' then [] :: pySplitSpaceAux cs
    else
      match pySplitSpaceAux cs with
      | [] => [[c]]
      | w :: ws => (c :: w) :: ws

/-- Python's `s.split(' ')`. -/
def pySplitSpace (s : String) : List String :=
  (pySplitSpaceAux s.toList).map String.mk

/-- `rec['action'].split(' ')[-1]` in `apply_recommendations` (line 296):
the last whitespace-separated token of the action text, which the apply
engine uses as the storage class to patch onto the bucket. -/
def parsedTargetClass (r : Recommendation) : String :=
  (pySplitSpace r.action).getLastD ""

/-- `STORAGE_CLASS_PRICING.lookup`, spelled out per storage class. -/
lemma lookup_pricing (cls : String) :
    STORAGE_CLASS_PRICING.lookup cls =
      if cls = "STANDARD" then some 0.020
      else if cls = "NEARLINE" then some 0.010
      else if cls = "COLDLINE" then some 0.004
      else if cls = "ARCHIVE" then some 0.0012
      else none := by
  by_cases h1 : cls = "STANDARD"
  · subst h1; simp +decide [STORAGE_CLASS_PRICING, List.lookup]
  · by_cases h2 : cls = "NEARLINE"
    · subst h2; simp +decide [STORAGE_CLASS_PRICING, List.lookup]
    · by_cases h3 : cls = "COLDLINE"
      · subst h3; simp +decide [STORAGE_CLASS_PRICING, List.lookup]
      · by_cases h4 : cls = "ARCHIVE"
        · subst h4; simp +decide [STORAGE_CLASS_PRICING, List.lookup]
        · have b1 : (cls == "STANDARD") = false := beq_eq_false_iff_ne.mpr h1
          have b2 : (cls == "NEARLINE") = false := beq_eq_false_iff_ne.mpr h2
          have b3 : (cls == "COLDLINE") = false := beq_eq_false_iff_ne.mpr h3
          have b4 : (cls == "ARCHIVE") = false := beq_eq_false_iff_ne.mpr h4
          simp [STORAGE_CLASS_PRICING, List.lookup, b1, b2, b3, b4, h1, h2, h3, h4]

/-- `currentRate`, spelled out per storage class. -/
lemma currentRate_eq (cls : String) :
    currentRate cls =
      if cls = "STANDARD" then 0.020
      else if cls = "NEARLINE" then 0.010
      else if cls = "COLDLINE" then 0.004
      else if cls = "ARCHIVE" then 0.0012
      else 0.020 := by
  rw [currentRate, dictGet, dictIndex, lookup_pricing, lookup_pricing]
  split_ifs <;> simp_all

lemma currentRate_nonneg (cls : String) : 0 ≤ currentRate cls := by
  rw [currentRate_eq]; split_ifs <;> norm_num

/-- The tier-change branch only ever targets one of the three cheaper
classes. -/
lemma targetClass_cases (bd : BucketData) :
    targetClass bd = "ARCHIVE" ∨ targetClass bd = "COLDLINE"
      ∨ targetClass bd = "NEARLINE" := by
  unfold targetClass; split_ifs <;> simp

lemma dictIndex_NEARLINE : dictIndex STORAGE_CLASS_PRICING "NEARLINE" = 0.010 := by
  rw [dictIndex, lookup_pricing]; simp

lemma dictIndex_COLDLINE : dictIndex STORAGE_CLASS_PRICING "COLDLINE" = 0.004 := by
  rw [dictIndex, lookup_pricing]; simp

lemma dictIndex_ARCHIVE : dictIndex STORAGE_CLASS_PRICING "ARCHIVE" = 0.0012 := by
  rw [dictIndex, lookup_pricing]; simp

lemma dictIndex_targetClass_nonneg (bd : BucketData) :
    0 ≤ dictIndex STORAGE_CLASS_PRICING (targetClass bd) := by
  rcases targetClass_cases bd with h | h | h <;> rw [h]
  · rw [dictIndex_ARCHIVE]; norm_num
  · rw [dictIndex_COLDLINE]; norm_num
  · rw [dictIndex_NEARLINE]; norm_num

lemma dictIndex_targetClass_le (bd : BucketData) :
    dictIndex STORAGE_CLASS_PRICING (targetClass bd) ≤ 0.020 := by
  rcases targetClass_cases bd with h | h | h <;> rw [h]
  · rw [dictIndex_ARCHIVE]; norm_num
  · rw [dictIndex_COLDLINE]; norm_num
  · rw [dictIndex_NEARLINE]; norm_num

lemma scanStep_fst (now : ℚ) (acc : ℚ × AccessCounts) (b : Blob) :
    (scanStep now acc b).1 = acc.1 + b.size := by
  unfold scanStep; cases b.time_created <;> rfl

lemma scan_fst_nonneg (now : ℚ) :
    ∀ (blobs : List Blob) (s : ℚ) (ac : AccessCounts),
      (∀ b ∈ blobs, 0 ≤ b.size) → 0 ≤ s →
      0 ≤ (blobs.foldl (scanStep now) (s, ac)).1 := by
  intro blobs
  induction blobs with
  | nil => intro s ac _ hs; simpa using hs
  | cons b t ih =>
    intro s ac hall hs
    rw [List.foldl_cons]
    have hb : 0 ≤ b.size := hall b (List.mem_cons_self b t)
    have hstep : (scanStep now (s, ac) b).1 = s + b.size := scanStep_fst now (s, ac) b
    have : (scanStep now (s, ac) b) = ((scanStep now (s, ac) b).1, (scanStep now (s, ac) b).2) := rfl
    rw [this, hstep]
    exact ih (s + b.size) _ (fun x hx => hall x (List.mem_cons_of_mem b hx)) (by linarith)

lemma scanBlobs_size_nonneg (now : ℚ) (blobs : List Blob)
    (h : ∀ b ∈ blobs, 0 ≤ b.size) : 0 ≤ (scanBlobs now blobs).1 :=
  scan_fst_nonneg now blobs 0 ⟨0, 0, 0, 0⟩ h le_rfl

lemma bumpCohort_sum (now : ℚ) (ac : AccessCounts) (t : ℚ) :
    cohortSum (bumpCohort now ac t) = cohortSum ac + 1 := by
  unfold bumpCohort
  cases classifyAge now t <;> simp [cohortSum] <;> omega

lemma scan_cohortSum (now : ℚ) :
    ∀ (blobs : List Blob) (s : ℚ) (ac : AccessCounts),
      cohortSum (blobs.foldl (scanStep now) (s, ac)).2
          + blobs.countP (fun b => b.time_created.isNone)
        = cohortSum ac + blobs.length := by
  intro blobs
  induction blobs with
  | nil => intro s ac; simp
  | cons b t ih =>
    intro s ac
    rw [List.foldl_cons, List.countP_cons, List.length_cons]
    cases hb : b.time_created with
    | none =>
      have hstep : scanStep now (s, ac) b = (s + b.size, ac) := by
        unfold scanStep; rw [hb]
      rw [hstep]
      have h := ih (s + b.size) ac
      simp [hb]
      omega
    | some created =>
      have hstep : scanStep now (s, ac) b = (s + b.size, bumpCohort now ac created) := by
        unfold scanStep; rw [hb]
      rw [hstep]
      have h := ih (s + b.size) (bumpCohort now ac created)
      have hsum := bumpCohort_sum now ac created
      simp [hb]
      omega

lemma currentRate_STANDARD : currentRate "STANDARD" = 0.020 := by
  rw [currentRate_eq]; simp

lemma currentRate_NEARLINE : currentRate "NEARLINE" = 0.010 := by
  rw [currentRate_eq]; simp

lemma currentRate_COLDLINE : currentRate "COLDLINE" = 0.004 := by
  rw [currentRate_eq]; simp

lemma currentRate_ARCHIVE : currentRate "ARCHIVE" = 0.0012 := by
  rw [currentRate_eq]; simp

/-- The last space-separated token of a tier-change action text is the
target class, for each of the three classes the branch can emit. -/
lemma pySplit_tierAction (c : String)
    (hc : c = "ARCHIVE" ∨ c = "COLDLINE" ∨ c = "NEARLINE") :
    (pySplitSpace ("Change storage class from " ++ "STANDARD" ++ " to " ++ c)).getLastD ""
      = c := by
  rcases hc with h | h | h <;> subst h <;> decide

/-- C6: an object with a creation timestamp is counted in exactly one age
cohort, chosen by testing `created > now-30d`, then `created > now-90d`,
then `created > now-365d`, in that order, defaulting to cold; an object
without a timestamp is counted in no cohort, so the four cohort counts
sum to the bucket's object count minus the number of objects without a
timestamp. -/
theorem age_cohorts_partition :
    (∀ now t : ℚ,
        (classifyAge now t = Cohort.recent ↔ t > now - 30)
        ∧ (classifyAge now t = Cohort.medium ↔ ¬t > now - 30 ∧ t > now - 90)
        ∧ (classifyAge now t = Cohort.rare ↔
            ¬t > now - 30 ∧ ¬t > now - 90 ∧ t > now - 365)
        ∧ (classifyAge now t = Cohort.cold ↔
            ¬t > now - 30 ∧ ¬t > now - 90 ∧ ¬t > now - 365))
    ∧ ∀ (now : ℚ) (name location cls : String) (blobs : List Blob),
        cohortSum (analyze_bucket now name location cls blobs).access_frequency
            + blobs.countP (fun b => b.time_created.isNone)
          = (analyze_bucket now name location cls blobs).object_count := by
  constructor
  · intro now t
    unfold classifyAge
    split_ifs with h1 h2 h3 <;> simp_all
  · intro now name location cls blobs
    show cohortSum (scanBlobs now blobs).2 + _ = blobs.length
    rw [scanBlobs]
    have h := scan_cohortSum now blobs 0 ⟨0, 0, 0, 0⟩
    simpa [cohortSum] using h

/-- C7: every division in the analysis has a positive denominator:
`cold_ratio` divides by `max(object_count, 1) ≥ 1` and the savings
percentages divide by `max(current, 0.01) ≥ 0.01`, so buckets with zero
objects or zero cost still get a defined ratio and percentage (the
stated products show these are genuine divisions by that denominator). -/
theorem division_guards :
    (∀ bd : BucketData,
        (0 : ℚ) < ((max bd.object_count 1 : ℕ) : ℚ)
        ∧ coldRatio bd * ((max bd.object_count 1 : ℕ) : ℚ)
            = (bd.access_frequency.rare : ℚ) + (bd.access_frequency.cold : ℚ))
    ∧ (∀ s c : ℚ, (0 : ℚ) < max c 0.01
        ∧ savingsPercent s c * max c 0.01 = s * 100)
    ∧ ∀ tc topt : ℚ, (0 : ℚ) < max tc 0.01
        ∧ totalSavingsPercent tc topt * max tc 0.01 = (tc - topt) * 100 := by
  refine ⟨fun bd => ?_, fun s c => ?_, fun tc topt => ?_⟩
  · have h1 : (1 : ℕ) ≤ max bd.object_count 1 := le_max_right _ _
    have hpos : (0 : ℚ) < ((max bd.object_count 1 : ℕ) : ℚ) := by
      exact_mod_cast Nat.lt_of_lt_of_le Nat.zero_lt_one h1
    refine ⟨hpos, ?_⟩
    rw [coldRatio, div_mul_cancel₀]
    exact ne_of_gt hpos
  · have hpos : (0 : ℚ) < max c 0.01 :=
      lt_of_lt_of_le (by norm_num) (le_max_right c 0.01)
    refine ⟨hpos, ?_⟩
    rw [savingsPercent, mul_comm (s / max c 0.01) 100, mul_assoc,
      div_mul_cancel₀ s (ne_of_gt hpos), mul_comm]
  · have hpos : (0 : ℚ) < max tc 0.01 :=
      lt_of_lt_of_le (by norm_num) (le_max_right tc 0.01)
    refine ⟨hpos, ?_⟩
    rw [totalSavingsPercent, mul_comm ((tc - topt) / max tc 0.01) 100, mul_assoc,
      div_mul_cancel₀ (tc - topt) (ne_of_gt hpos), mul_comm]

/-- C8: the pricing lookup is total: a storage class outside the four
known ones is priced at the STANDARD rate (the `.get` fallback of
line 141), known classes get their own rate, and the analyzed current
cost is always `size_gb * currentRate cls`. -/
theorem pricing_fallback (cls : String)
    (h : cls ∉ ["STANDARD", "NEARLINE", "COLDLINE", "ARCHIVE"]) :
    currentRate cls = currentRate "STANDARD"
    ∧ currentRate "STANDARD" = 0.020
    ∧ currentRate "NEARLINE" = 0.010
    ∧ currentRate "COLDLINE" = 0.004
    ∧ currentRate "ARCHIVE" = 0.0012
    ∧ ∀ (now : ℚ) (name location : String) (blobs : List Blob),
        (analyze_bucket now name location cls blobs).current_cost
          = (analyze_bucket now name location cls blobs).size_bytes
              / 1024 ^ 3 * currentRate cls := by
  simp only [List.mem_cons, List.not_mem_nil, or_false, not_or] at h
  obtain ⟨h1, h2, h3, h4⟩ := h
  refine ⟨?_, currentRate_STANDARD, currentRate_NEARLINE, currentRate_COLDLINE,
    currentRate_ARCHIVE, ?_⟩
  · rw [currentRate_eq, currentRate_STANDARD]
    simp [h1, h2, h3, h4]
  · intro now name location blobs
    rfl

lemma gen_optimized_le (bd : BucketData) (hgb : 0 ≤ sizeGB bd)
    (hcost : bd.current_cost = sizeGB bd * currentRate bd.storage_class) :
    (generate_recommendations bd).optimized_cost ≤ bd.current_cost := by
  have hc0 : 0 ≤ bd.current_cost := by
    rw [hcost]
    exact mul_nonneg hgb (currentRate_nonneg _)
  rw [generate_recommendations_eq]
  show optBranches bd ≤ bd.current_cost
  rw [optBranches]
  split_ifs with h1 h2
  · rw [hcost, h1.1, currentRate_STANDARD]
    exact mul_le_mul_of_nonneg_left (dictIndex_targetClass_le bd) hgb
  · nlinarith
  · exact le_refl _

/-- C1: for every analyzed bucket whose objects all have nonnegative
sizes, the optimized cost never exceeds the current cost, the savings
field is exactly `current_cost - optimized_cost`, and therefore savings
are nonnegative. -/
theorem optimized_le_current (now : ℚ) (name location cls : String)
    (blobs : List Blob) (hsize : ∀ b ∈ blobs, 0 ≤ b.size) :
    (generate_recommendations (analyze_bucket now name location cls blobs)).optimized_cost
        ≤ (analyze_bucket now name location cls blobs).current_cost
    ∧ (generate_recommendations (analyze_bucket now name location cls blobs)).savings
        = (analyze_bucket now name location cls blobs).current_cost
          - (generate_recommendations (analyze_bucket now name location cls blobs)).optimized_cost
    ∧ 0 ≤ (generate_recommendations (analyze_bucket now name location cls blobs)).savings := by
  have hs : 0 ≤ (analyze_bucket now name location cls blobs).size_bytes :=
    scanBlobs_size_nonneg now blobs hsize
  have hgb : 0 ≤ sizeGB (analyze_bucket now name location cls blobs) :=
    div_nonneg hs (by norm_num)
  have hcost : (analyze_bucket now name location cls blobs).current_cost
      = sizeGB (analyze_bucket now name location cls blobs)
        * currentRate (analyze_bucket now name location cls blobs).storage_class := rfl
  have hle := gen_optimized_le (analyze_bucket now name location cls blobs) hgb hcost
  have hsav : (generate_recommendations (analyze_bucket now name location cls blobs)).savings
      = (analyze_bucket now name location cls blobs).current_cost
        - (generate_recommendations (analyze_bucket now name location cls blobs)).optimized_cost := by
    rw [generate_recommendations_eq]
  exact ⟨hle, hsav, by rw [hsav]; linarith⟩

/-- C2: on a STANDARD bucket with cold ratio above 0.7, exactly one
tier-change recommendation is emitted; its target is `targetClass`
(ARCHIVE when the ratio exceeds 0.9 and cold strictly exceeds rare,
COLDLINE when the ratio exceeds 0.9 otherwise, NEARLINE for ratios in
(0.7, 0.9]); its savings are `current_cost - size_gb * rate(target)` and
the optimized cost is `size_gb * rate(target)`. -/
theorem tier_change (bd : BucketData) (htier : bd.storage_class = "STANDARD")
    (hratio : coldRatio bd > 0.7) :
    tierRec bd (targetClass bd) ∈ (generate_recommendations bd).recommendations
    ∧ (generate_recommendations bd).recommendations.countP
        (fun r => r.rtype == "storage_class") = 1
    ∧ (∀ r ∈ (generate_recommendations bd).recommendations,
        r.rtype = "storage_class" →
          r.savings = bd.current_cost
            - sizeGB bd * dictIndex STORAGE_CLASS_PRICING (targetClass bd))
    ∧ (generate_recommendations bd).optimized_cost
        = sizeGB bd * dictIndex STORAGE_CLASS_PRICING (targetClass bd) := by
  have hcond : bd.storage_class = "STANDARD" ∧ coldRatio bd > 0.7 := ⟨htier, hratio⟩
  rw [generate_recommendations_eq]
  simp only [recsBranches, optBranches, versioningPart, if_pos hcond]
  split_ifs with hv <;>
    simp +decide [tierRec, versioningRec, List.countP_cons]

/-- C3: a lifecycle-policy recommendation is emitted exactly when no
tier-change recommendation is in the output and the cold ratio exceeds
0.3; its savings are exactly `0.3 * current_cost` and the optimized cost
is `current_cost` minus those savings. -/
theorem lifecycle_iff (bd : BucketData) :
    ((∃ r ∈ (generate_recommendations bd).recommendations, r.rtype = "lifecycle") ↔
      (∀ r ∈ (generate_recommendations bd).recommendations, r.rtype ≠ "storage_class")
        ∧ coldRatio bd > 0.3)
    ∧ ∀ r ∈ (generate_recommendations bd).recommendations,
        r.rtype = "lifecycle" →
          r.savings = 0.3 * bd.current_cost
          ∧ (generate_recommendations bd).optimized_cost
              = bd.current_cost - r.savings := by
  rw [generate_recommendations_eq]
  simp only [recsBranches, optBranches, versioningPart]
  split_ifs with h1 h2 h3 h4 h5 <;>
    simp +decide [tierRec, lifecycleRec, versioningRec, mul_comm] <;>
    first
      | exact h2
      | exact h3
      | simp_all

/-- C4: a versioning-review recommendation is present in the output
exactly when the bucket holds more than 1000 objects, its savings are 0,
and the optimized cost is fully determined by the tier-change/lifecycle
branches alone, so emitting it never changes the optimized cost. -/
theorem versioning_iff (bd : BucketData) :
    ((∃ r ∈ (generate_recommendations bd).recommendations, r.rtype = "versioning") ↔
      bd.object_count > 1000)
    ∧ (∀ r ∈ (generate_recommendations bd).recommendations,
        r.rtype = "versioning" → r.savings = 0)
    ∧ (generate_recommendations bd).optimized_cost =
        (if bd.storage_class = "STANDARD" ∧ coldRatio bd > 0.7 then
          sizeGB bd * dictIndex STORAGE_CLASS_PRICING (targetClass bd)
        else if coldRatio bd > 0.3 then bd.current_cost - bd.current_cost * 0.3
        else bd.current_cost) := by
  rw [generate_recommendations_eq]
  simp only [recsBranches, optBranches, versioningPart]
  split_ifs with h1 h2 h3 h4 h5 <;>
    simp +decide [tierRec, lifecycleRec, versioningRec] <;> simp_all

/-- C5: per bucket, at most one of the tier-change and lifecycle
recommendations is emitted, the list holds at most two entries, and the
versioning-review entry (when present) comes after the others, i.e. the
list equals its non-versioning entries followed by its versioning
entries. -/
theorem rec_list_structure (bd : BucketData) :
    ((generate_recommendations bd).recommendations.countP
          (fun r => r.rtype == "storage_class")
        + (generate_recommendations bd).recommendations.countP
          (fun r => r.rtype == "lifecycle") ≤ 1)
    ∧ (generate_recommendations bd).recommendations.length ≤ 2
    ∧ (generate_recommendations bd).recommendations.filter
          (fun r => !(r.rtype == "versioning"))
        ++ (generate_recommendations bd).recommendations.filter
          (fun r => r.rtype == "versioning")
        = (generate_recommendations bd).recommendations := by
  rw [generate_recommendations_eq]
  simp only [recsBranches, versioningPart]
  split_ifs with h1 h2 h3 h4 h5 <;>
    simp +decide [tierRec, lifecycleRec, versioningRec, List.countP_cons]

/-- C9: recommendation generation is a deterministic function of the
analyzed bucket state: two bucket records that agree on size, storage
class, object count and age-cohort counts, and whose current costs were
both computed by the analysis pricing formula, yield identical
recommendation lists, optimized costs and savings. -/
theorem generation_deterministic (bd1 bd2 : BucketData)
    (hsize : bd1.size_bytes = bd2.size_bytes)
    (htier : bd1.storage_class = bd2.storage_class)
    (hcount : bd1.object_count = bd2.object_count)
    (hfreq : bd1.access_frequency = bd2.access_frequency)
    (hcost1 : bd1.current_cost = sizeGB bd1 * currentRate bd1.storage_class)
    (hcost2 : bd2.current_cost = sizeGB bd2 * currentRate bd2.storage_class) :
    generate_recommendations bd1 = generate_recommendations bd2 := by
  obtain ⟨n1, l1, c1, s1, o1, a1, cc1⟩ := bd1
  obtain ⟨n2, l2, c2, s2, o2, a2, cc2⟩ := bd2
  simp only at hsize htier hcount hfreq hcost1 hcost2
  subst hsize htier hcount hfreq
  have hcc : cc1 = cc2 := by
    rw [hcost1, hcost2]
    simp [sizeGB]
  subst hcc
  simp only [generate_recommendations, coldRatio, sizeGB]

/-- C10: for every tier-change recommendation, the last
whitespace-separated token of its action text (the token
`apply_recommendations` parses out and patches onto the bucket) is
exactly the storage class whose rate produced the recommendation's
savings and the bucket's optimized cost. -/
theorem apply_parses_target (bd : BucketData) :
    ∀ r ∈ (generate_recommendations bd).recommendations,
      r.rtype = "storage_class" →
        parsedTargetClass r = targetClass bd
        ∧ (generate_recommendations bd).optimized_cost
            = sizeGB bd * dictIndex STORAGE_CLASS_PRICING (parsedTargetClass r)
        ∧ r.savings = bd.current_cost
            - sizeGB bd * dictIndex STORAGE_CLASS_PRICING (parsedTargetClass r) := by
  rw [generate_recommendations_eq]
  simp only [recsBranches, optBranches, versioningPart]
  split_ifs with h1 h2 h3 h4 h5 <;> intro r hr hstorage
  · rw [List.mem_append] at hr
    rcases hr with hr | hr
    · rw [List.mem_singleton] at hr
      subst hr
      have hp : parsedTargetClass (tierRec bd (targetClass bd)) = targetClass bd := by
        simp only [parsedTargetClass, tierRec]
        rw [h1.1]
        exact pySplit_tierAction _ (targetClass_cases bd)
      exact ⟨hp, by rw [hp], by rw [hp]; rfl⟩
    · rw [List.mem_singleton] at hr
      subst hr
      simp +decide [versioningRec] at hstorage
  · rw [List.append_nil, List.mem_singleton] at hr
    subst hr
    have hp : parsedTargetClass (tierRec bd (targetClass bd)) = targetClass bd := by
      simp only [parsedTargetClass, tierRec]
      rw [h1.1]
      exact pySplit_tierAction _ (targetClass_cases bd)
    exact ⟨hp, by rw [hp], by rw [hp]; rfl⟩
  · rw [List.mem_append] at hr
    rcases hr with hr | hr <;> rw [List.mem_singleton] at hr <;> subst hr <;>
      simp +decide [lifecycleRec, versioningRec] at hstorage
  · rw [List.append_nil, List.mem_singleton] at hr
    subst hr
    simp +decide [lifecycleRec] at hstorage
  · rw [List.nil_append, List.mem_singleton] at hr
    subst hr
    simp +decide [versioningRec] at hstorage
  · simp at hr

/-- A 100 GiB STANDARD bucket of 10 objects, all cold: the ARCHIVE
tier-change case. -/
def sampleBd : BucketData :=
  { name := "bucket-a", location := "US", storage_class := "STANDARD"
    size_bytes := 100 * 1024 ^ 3, object_count := 10
    access_frequency := ⟨0, 0, 0, 10⟩, current_cost := 2 }

/-- The same bucket state as `sampleBd` under another name and location. -/
def sampleBd2 : BucketData :=
  { name := "bucket-a-rescan", location := "EU", storage_class := "STANDARD"
    size_bytes := 100 * 1024 ^ 3, object_count := 10
    access_frequency := ⟨0, 0, 0, 10⟩, current_cost := 2 }

/-- A STANDARD bucket with cold ratio 0.5: the lifecycle-policy case. -/
def bdLife : BucketData :=
  { name := "bucket-c", location := "US", storage_class := "STANDARD"
    size_bytes := 10 * 1024 ^ 3, object_count := 10
    access_frequency := ⟨5, 0, 2, 3⟩, current_cost := 0.2 }

/-- A bucket of 1500 recent objects: the versioning-review case. -/
def bdVers : BucketData :=
  { name := "bucket-d", location := "US", storage_class := "STANDARD"
    size_bytes := 1024 ^ 3, object_count := 1500
    access_frequency := ⟨1500, 0, 0, 0⟩, current_cost := 0.02 }

/-- A single 1 GiB object created at day 0. -/
def wBlobs : List Blob :=
  [{ size := 1024 ^ 3, time_created := some 0 }]

/-- Witness for C1 at a concrete one-object bucket. -/
theorem optimized_le_current_witness :
    (∀ b ∈ wBlobs, 0 ≤ b.size)
    ∧ ((generate_recommendations (analyze_bucket 1000 "b" "US" "STANDARD" wBlobs)).optimized_cost
          ≤ (analyze_bucket 1000 "b" "US" "STANDARD" wBlobs).current_cost
      ∧ (generate_recommendations (analyze_bucket 1000 "b" "US" "STANDARD" wBlobs)).savings
          = (analyze_bucket 1000 "b" "US" "STANDARD" wBlobs).current_cost
            - (generate_recommendations (analyze_bucket 1000 "b" "US" "STANDARD" wBlobs)).optimized_cost
      ∧ 0 ≤ (generate_recommendations (analyze_bucket 1000 "b" "US" "STANDARD" wBlobs)).savings) := by
  have hw : ∀ b ∈ wBlobs, 0 ≤ b.size := by
    intro b hb
    rw [wBlobs, List.mem_singleton] at hb
    subst hb
    norm_num
  exact ⟨hw, optimized_le_current 1000 "b" "US" "STANDARD" wBlobs hw⟩

/-- Witness for C2 at `sampleBd` (cold ratio 1 > 0.9, cold > rare, so the
target class is ARCHIVE). -/
theorem tier_change_witness :
    (sampleBd.storage_class = "STANDARD" ∧ coldRatio sampleBd > 0.7)
    ∧ (tierRec sampleBd (targetClass sampleBd) ∈ (generate_recommendations sampleBd).recommendations
      ∧ (generate_recommendations sampleBd).recommendations.countP
          (fun r => r.rtype == "storage_class") = 1
      ∧ (∀ r ∈ (generate_recommendations sampleBd).recommendations,
          r.rtype = "storage_class" →
            r.savings = sampleBd.current_cost
              - sizeGB sampleBd * dictIndex STORAGE_CLASS_PRICING (targetClass sampleBd))
      ∧ (generate_recommendations sampleBd).optimized_cost
          = sizeGB sampleBd * dictIndex STORAGE_CLASS_PRICING (targetClass sampleBd)) := by
  have hr : coldRatio sampleBd > 0.7 := by norm_num [coldRatio, sampleBd]
  exact ⟨⟨rfl, hr⟩, tier_change sampleBd rfl hr⟩

/-- Witness for C3 at `bdLife` (cold ratio 0.5). -/
theorem lifecycle_iff_witness :
    ((∃ r ∈ (generate_recommendations bdLife).recommendations, r.rtype = "lifecycle") ↔
      (∀ r ∈ (generate_recommendations bdLife).recommendations, r.rtype ≠ "storage_class")
        ∧ coldRatio bdLife > 0.3)
    ∧ ∀ r ∈ (generate_recommendations bdLife).recommendations,
        r.rtype = "lifecycle" →
          r.savings = 0.3 * bdLife.current_cost
          ∧ (generate_recommendations bdLife).optimized_cost
              = bdLife.current_cost - r.savings :=
  lifecycle_iff bdLife

/-- Witness for C4 at `bdVers` (1500 objects). -/
theorem versioning_iff_witness :
    ((∃ r ∈ (generate_recommendations bdVers).recommendations, r.rtype = "versioning") ↔
      bdVers.object_count > 1000)
    ∧ (∀ r ∈ (generate_recommendations bdVers).recommendations,
        r.rtype = "versioning" → r.savings = 0)
    ∧ (generate_recommendations bdVers).optimized_cost =
        (if bdVers.storage_class = "STANDARD" ∧ coldRatio bdVers > 0.7 then
          sizeGB bdVers * dictIndex STORAGE_CLASS_PRICING (targetClass bdVers)
        else if coldRatio bdVers > 0.3 then bdVers.current_cost - bdVers.current_cost * 0.3
        else bdVers.current_cost) :=
  versioning_iff bdVers

/-- Witness for C8 at the unknown class MULTI_REGIONAL. -/
theorem pricing_fallback_witness :
    (("MULTI_REGIONAL" : String) ∉ ["STANDARD", "NEARLINE", "COLDLINE", "ARCHIVE"])
    ∧ (currentRate "MULTI_REGIONAL" = currentRate "STANDARD"
      ∧ currentRate "STANDARD" = 0.020
      ∧ currentRate "NEARLINE" = 0.010
      ∧ currentRate "COLDLINE" = 0.004
      ∧ currentRate "ARCHIVE" = 0.0012
      ∧ ∀ (now : ℚ) (name location : String) (blobs : List Blob),
          (analyze_bucket now name location "MULTI_REGIONAL" blobs).current_cost
            = (analyze_bucket now name location "MULTI_REGIONAL" blobs).size_bytes
                / 1024 ^ 3 * currentRate "MULTI_REGIONAL") := by
  have h : ("MULTI_REGIONAL" : String) ∉ ["STANDARD", "NEARLINE", "COLDLINE", "ARCHIVE"] := by
    decide
  exact ⟨h, pricing_fallback "MULTI_REGIONAL" h⟩

/-- Witness for C9: the same bucket state under two names generates the
same result. -/
theorem generation_deterministic_witness :
    (sampleBd.size_bytes = sampleBd2.size_bytes
      ∧ sampleBd.storage_class = sampleBd2.storage_class
      ∧ sampleBd.object_count = sampleBd2.object_count
      ∧ sampleBd.access_frequency = sampleBd2.access_frequency
      ∧ sampleBd.current_cost = sizeGB sampleBd * currentRate sampleBd.storage_class
      ∧ sampleBd2.current_cost = sizeGB sampleBd2 * currentRate sampleBd2.storage_class)
    ∧ generate_recommendations sampleBd = generate_recommendations sampleBd2 := by
  have hc1 : sampleBd.current_cost = sizeGB sampleBd * currentRate sampleBd.storage_class := by
    norm_num [sampleBd, sizeGB, currentRate_STANDARD]
  have hc2 : sampleBd2.current_cost = sizeGB sampleBd2 * currentRate sampleBd2.storage_class := by
    norm_num [sampleBd2, sizeGB, currentRate_STANDARD]
  exact ⟨⟨rfl, rfl, rfl, rfl, hc1, hc2⟩,
    generation_deterministic sampleBd sampleBd2 rfl rfl rfl rfl hc1 hc2⟩

/-- Witness for C10 at `sampleBd`: the tier-change recommendation is in
the output and its parsed target round-trips. -/
theorem apply_parses_target_witness :
    (tierRec sampleBd (targetClass sampleBd) ∈ (generate_recommendations sampleBd).recommendations
      ∧ (tierRec sampleBd (targetClass sampleBd)).rtype = "storage_class")
    ∧ (parsedTargetClass (tierRec sampleBd (targetClass sampleBd)) = targetClass sampleBd
      ∧ (generate_recommendations sampleBd).optimized_cost
          = sizeGB sampleBd * dictIndex STORAGE_CLASS_PRICING
              (parsedTargetClass (tierRec sampleBd (targetClass sampleBd)))
      ∧ (tierRec sampleBd (targetClass sampleBd)).savings
          = sampleBd.current_cost
            - sizeGB sampleBd * dictIndex STORAGE_CLASS_PRICING
                (parsedTargetClass (tierRec sampleBd (targetClass sampleBd)))) := by
  have hc : sampleBd.storage_class = "STANDARD" ∧ coldRatio sampleBd > 0.7 :=
    ⟨rfl, by norm_num [coldRatio, sampleBd]⟩
  have hmem : tierRec sampleBd (targetClass sampleBd)
      ∈ (generate_recommendations sampleBd).recommendations := by
    rw [generate_recommendations_eq]
    show tierRec sampleBd (targetClass sampleBd) ∈ recsBranches sampleBd ++ versioningPart sampleBd
    rw [recsBranches, if_pos hc]
    exact List.mem_append_left _ (List.mem_singleton_self _)
  exact ⟨⟨hmem, rfl⟩, apply_parses_target sampleBd (tierRec sampleBd (targetClass sampleBd)) hmem rfl⟩
